import Mathlib

/-!
Verification development for the schema-driven document validator of
`@sanity/schema-client` (source: `src/validation.ts`, helpers in
`src/helpers.ts`, type definitions in `src/types.ts`).

The embedding models JavaScript runtime values (`JValue`, `JNum`), the
schema data model (`SchemaType`, `ValidationRule`, `ValidationGroup`),
and the validation engine (`validateDocument`, `validateFieldF` and the
per-kind checkers).  JavaScript exceptions (property access on
`null`/`undefined`) are modelled with the `Except String` monad: a thrown
`TypeError` is `Except.error "TypeError"`.

The engine's recursion is unbounded in the source (it follows the
document's nesting); here it is indexed by a `Nat` fuel so that every
definition is structurally recursive and kernel-computable.  Each
recursive call strictly descends into a subvalue of the document, so any
fuel larger than the document's nesting depth yields the source
behaviour; all general theorems are stated for every fuel (in the form
`fuel + 1`), so no theorem depends on a particular fuel choice.

External JavaScript builtins that the source calls (RegExp compilation
and matching, `new URL`, `Date` parsing) are not code of this repository;
they are modelled as an explicit environment `JsEnv` of total functions,
over which every theorem is universally quantified.

Parameters of the source signatures that the corresponding body never
reads (the `rules` argument of `validateString`, `validateSlug` and
`validateUrl`, the `field` argument of `validateNumber`, `validateSlug`
and `validateBlock`, and the `options`/`field` arguments threaded through
`applyValidationRules` and the per-kind checkers) are dropped in the
embedding; no behaviour depends on them.
-/

/-- JavaScript numbers, as far as the validator observes them: a finite
value (modelled as a rational, which is exact for every comparison the
source performs), `NaN`, and the two infinities. -/
inductive JNum where
  | real (q : ℚ)
  | nan
  | posInf
  | negInf
deriving DecidableEq

/-- JavaScript runtime values as the validator can encounter them:
`undefined`, `null`, booleans, numbers, strings, arrays and plain
objects (ordered key/value lists, first occurrence of a key wins, as in
a JS object literal there are no duplicate keys). -/
inductive JValue where
  | undefined
  | null
  | bool (b : Bool)
  | num (n : JNum)
  | str (s : String)
  | arr (elems : List JValue)
  | obj (entries : List (String × JValue))

/-- JavaScript truthiness (`!x` is `!truthy x`).  `NaN`, `0`, the empty
string, `null` and `undefined` are falsy; every object/array is truthy. -/
def truthy : JValue → Bool
  | .undefined => false
  | .null => false
  | .bool b => b
  | .num (.real q) => decide (q ≠ 0)
  | .num .nan => false
  | .num .posInf => true
  | .num .negInf => true
  | .str s => decide (s ≠ "")
  | .arr _ => true
  | .obj _ => true

/-- The JavaScript `typeof` operator (note `typeof null = "object"` and
`typeof [] = "object"`). -/
def typeofStr : JValue → String
  | .undefined => "undefined"
  | .null => "object"
  | .bool _ => "boolean"
  | .num _ => "number"
  | .str _ => "string"
  | .arr _ => "object"
  | .obj _ => "object"

/-- The guard `typeof v === 'object' && v !== null` used throughout the
source: true for plain objects and arrays, false for `null`,
`undefined` and primitives. -/
def isObjectTypeof : JValue → Bool
  | .arr _ => true
  | .obj _ => true
  | _ => false

/-- Property lookup in an object entry list; a missing key yields
JavaScript `undefined`. -/
def jlookup : List (String × JValue) → String → JValue
  | [], _ => .undefined
  | (k, v) :: rest, key => if k = key then v else jlookup rest key

/-- Key presence (the JavaScript `in` operator on a plain object). -/
def containsKey : List (String × JValue) → String → Bool
  | [], _ => false
  | (k, _) :: rest, key => k = key || containsKey rest key

/-- Property access `v[k]` on a receiver that is known not to be
`null`/`undefined`: objects look the key up, arrays and primitives have
none of the named properties the validator reads, so they yield
`undefined`. -/
def jsMember : JValue → String → JValue
  | .obj entries, k => jlookup entries k
  | _, _ => .undefined

/-- Property access `v[k]` on an arbitrary receiver: JavaScript throws a
`TypeError` when the receiver is `null` or `undefined`. -/
def jsMemberE : JValue → String → Except String JValue
  | .null, _ => Except.error "TypeError"
  | .undefined, _ => Except.error "TypeError"
  | v, k => Except.ok (jsMember v k)

/-- `'_key' in item` style check on an arbitrary non-null object-typeof
value: arrays have no such string key. -/
def hasKeyJS : JValue → String → Bool
  | .obj entries, k => containsKey entries k
  | _, _ => false

/-- Global `isNaN` on a number (the source only applies it to values
already known to be numbers). -/
def JNum.isNaNb : JNum → Bool
  | .nan => true
  | _ => false

/-- `Number.isInteger`: false for `NaN` and the infinities. -/
def JNum.isIntegerb : JNum → Bool
  | .real q => decide (q.den = 1)
  | _ => false

/-- JavaScript `<` on numbers; any comparison involving `NaN` is false. -/
def jnumLt : JNum → JNum → Bool
  | .nan, _ => false
  | _, .nan => false
  | .real a, .real b => decide (a < b)
  | .real _, .posInf => true
  | .real _, .negInf => false
  | .posInf, _ => false
  | .negInf, .negInf => false
  | .negInf, _ => true

/-- JavaScript `<=` on numbers; any comparison involving `NaN` is false. -/
def jnumLe : JNum → JNum → Bool
  | .nan, _ => false
  | _, .nan => false
  | .real a, .real b => decide (a ≤ b)
  | .real _, .posInf => true
  | .real _, .negInf => false
  | .posInf, .posInf => true
  | .posInf, _ => false
  | .negInf, _ => true

/-- JavaScript `>` on numbers. -/
def jnumGt (a b : JNum) : Bool := jnumLt b a

/-- JavaScript subtraction on numbers (used only inside suggestion
strings such as `Add N more characters`). -/
def jnumSub : JNum → JNum → JNum
  | .nan, _ => .nan
  | _, .nan => .nan
  | .real a, .real b => .real (a - b)
  | .real _, .posInf => .negInf
  | .real _, .negInf => .posInf
  | .posInf, .posInf => .nan
  | .posInf, _ => .posInf
  | .negInf, .negInf => .nan
  | .negInf, _ => .negInf

/-- `Math.round` (round half toward positive infinity). -/
def jnumRound : JNum → JNum
  | .real q => .real ((⌊q + (1 : ℚ) / 2⌋ : ℤ) : ℚ)
  | n => n

/-- Rendering a number inside a template string.  Integers render as in
JavaScript; a non-integral rational renders as `num/den`, a deviation
from JavaScript's decimal notation that only affects message text for
fractional bounds, which no theorem below inspects. -/
def jnumToString : JNum → String
  | .real q => if q.den = 1 then toString q.num else toString q.num ++ "/" ++ toString q.den
  | .nan => "NaN"
  | .posInf => "Infinity"
  | .negInf => "-Infinity"

/-- JavaScript `ToNumber` coercion as needed for the `min`/`max`/`length`
bound checks (`value.length < constraint`).  Constraints are numbers in
every schema the repository handles; the non-number cases follow
JavaScript except that non-empty strings are modelled as `NaN` (numeric
string literals are never used as bounds in this codebase). -/
def toNumberJ : JValue → JNum
  | .num n => n
  | .undefined => .nan
  | .null => .real 0
  | .bool b => .real (if b then 1 else 0)
  | .str s => if s = "" then .real 0 else .nan
  | .arr _ => .nan
  | .obj _ => .nan

/-- Strict equality `x === 1` for a raw constraint value (used for the
singular/plural choice in `item${min === 1 ? '' : 's'}`). -/
def jsIsOne : JValue → Bool
  | .num (.real q) => decide (q = 1)
  | _ => false

/-- Template-literal rendering `${v}` of an arbitrary value, with an
internal depth bound (1000) so the definition is structurally
recursive; arrays join their elements with commas, rendering `null` and
`undefined` elements as empty, exactly as `Array.prototype.toString`. -/
def jsDisplayF : Nat → JValue → String
  | _, .undefined => "undefined"
  | _, .null => "null"
  | _, .bool b => if b then "true" else "false"
  | _, .num n => jnumToString n
  | _, .str s => s
  | 0, .arr _ => ""
  | fuel + 1, .arr elems =>
      String.intercalate ","
        (elems.map (fun e =>
          match e with
          | .null => ""
          | .undefined => ""
          | _ => jsDisplayF fuel e))
  | _, .obj _ => "[object Object]"

/-- Template-literal rendering `${v}` of an arbitrary value. -/
def jsDisplayString (v : JValue) : String := jsDisplayF 1000 v

/-- `JSON.stringify`, depth-bounded like `jsDisplayF`; string escaping is
omitted (it is only used inside one suggestion string and no theorem
inspects an escaped character). -/
def jsonStringifyF : Nat → JValue → String
  | _, .undefined => "undefined"
  | _, .null => "null"
  | _, .bool b => if b then "true" else "false"
  | _, .num (.real q) => jnumToString (.real q)
  | _, .num _ => "null"
  | _, .str s => "\"" ++ s ++ "\""
  | 0, .arr _ => ""
  | 0, .obj _ => ""
  | fuel + 1, .arr elems =>
      "[" ++ String.intercalate ","
        (elems.map (fun e =>
          match e with
          | .undefined => "null"
          | _ => jsonStringifyF fuel e)) ++ "]"
  | fuel + 1, .obj entries =>
      "\x7b" ++ String.intercalate ","
        ((entries.filter (fun kv => !(kv.2 matches .undefined))).map
          (fun kv => "\"" ++ kv.1 ++ "\":" ++ jsonStringifyF fuel kv.2)) ++ "\x7d"

/-- `JSON.stringify` of a value. -/
def jsonStringify (v : JValue) : String := jsonStringifyF 1000 v

/-- A validation rule (`ManifestValidationRule`): a flag such as
`presence`, `min`, `max`, `regex`, plus an optional constraint value. -/
structure ValidationRule where
  flag : String
  constraint : Option JValue

/-- A validation group (`ManifestValidationGroup`). -/
structure ValidationGroup where
  rules : List ValidationRule
  message : Option String
  level : Option String

/-- A schema type / field node (`ManifestSchemaType` / `ManifestField`).
`ofMembers` and `toTargets` model the source's `of` and `to` lists.
Optional lists are `Option (List _)` because the source distinguishes an
absent list (falsy) from an empty one (truthy). -/
inductive SchemaType where
  | mk
    (type : String)
    (name : Option String)
    (title : Option String)
    (fields : Option (List SchemaType))
    (ofMembers : Option (List SchemaType))
    (toTargets : Option (List SchemaType))
    (validation : Option (List ValidationGroup))
    (options : Option (List (String × JValue)))

def SchemaType.type : SchemaType → String
  | .mk t _ _ _ _ _ _ _ => t

def SchemaType.name : SchemaType → Option String
  | .mk _ n _ _ _ _ _ _ => n

def SchemaType.title : SchemaType → Option String
  | .mk _ _ t _ _ _ _ _ => t

def SchemaType.fields : SchemaType → Option (List SchemaType)
  | .mk _ _ _ f _ _ _ _ => f

def SchemaType.ofMembers : SchemaType → Option (List SchemaType)
  | .mk _ _ _ _ o _ _ _ => o

def SchemaType.toTargets : SchemaType → Option (List SchemaType)
  | .mk _ _ _ _ _ t _ _ => t

def SchemaType.validation : SchemaType → Option (List ValidationGroup)
  | .mk _ _ _ _ _ _ v _ => v

def SchemaType.options : SchemaType → Option (List (String × JValue))
  | .mk _ _ _ _ _ _ _ o => o

/-- `getValidationRules` from `src/helpers.ts`: flatten the rules of all
validation groups, in order. -/
def getValidationRules (field : SchemaType) : List ValidationRule :=
  ((field.validation.getD []).map (fun g => g.rules)).flatten

/-- Template interpolation of an optional string (JavaScript renders an
`undefined` interpolated value as the text `undefined`). -/
def optNameStr : Option String → String
  | some s => s
  | none => "undefined"

/-- The key used for `document[field.name]` and in issue paths. -/
def fieldKey (f : SchemaType) : String := optNameStr f.name

/-- The engine's required-field test (`validateField` in
`src/validation.ts`): some rule has flag `presence` with constraint
strictly equal to the string `required`. -/
def fieldIsRequired (field : SchemaType) : Bool :=
  (getValidationRules field).any (fun r =>
    r.flag == "presence" &&
      (match r.constraint with
       | some (.str s) => s == "required"
       | _ => false))

/-- `value === undefined || value === null`. -/
def isAbsent : JValue → Bool
  | .undefined => true
  | .null => true
  | _ => false

/-- The type lookup `new Map(allTypes.map(t => [t.name, t]))`: for
duplicate names, the later entry overwrites the earlier, hence the
reversed search. -/
def typeLookup (types : List SchemaType) (k : String) : Option SchemaType :=
  types.reverse.find? (fun t => t.name == some k)

/-- Severity of a validation issue. -/
inductive Severity where
  | error
  | warning
  | info
deriving DecidableEq

/-- The `field` context attached to issues. -/
structure FieldContext where
  name : Option String
  type : String
  title : Option String

def mkFieldContext (f : SchemaType) : FieldContext :=
  { name := f.name, type := f.type, title := f.title }

/-- A validation issue (`ValidationIssue` in `src/validation.ts`).
Optional properties absent on the source object are `none`; an absent
`suggestions` array is modelled as `[]` (the source only ever checks its
first element and its nonemptiness). -/
structure ValidationIssue where
  path : String
  message : String
  severity : Severity
  rule : Option ValidationRule
  value : Option JValue
  expected : Option String
  field : Option FieldContext
  suggestions : List String

/-- The result record of `validateDocument`. -/
structure ValidationResult where
  valid : Bool
  issues : List ValidationIssue
  errors : List ValidationIssue
  warnings : List ValidationIssue
  info : List ValidationIssue
  documentType : Option String
  summary : String

/-- Options of `validateDocument`; `resolveReference` is an opaque
callback the engine accepts but never invokes. -/
structure ValidateOptions where
  includeWarnings : Option Bool
  includeInfo : Option Bool
  stopOnFirstError : Option Bool
  resolveReference : Option (String → Option String)

/-- External JavaScript builtins used by the engine.  `regexTest pat s`
is `none` when `new RegExp(pat)` fails to compile, otherwise
`some (regex.test s)`; `urlValid s` is whether `new URL(s)` succeeds;
`dateValid s` is whether `new Date(s)` parses to a valid date. -/
structure JsEnv where
  regexTest : String → String → Option Bool
  urlValid : String → Bool
  dateValid : String → Bool

/-- `${field.title || field.name}`. -/
def displayFieldTitle (f : SchemaType) : String :=
  match f.title with
  | some t => if t ≠ "" then t else optNameStr f.name
  | none => optNameStr f.name

/-- The issue pushed by `validateField` when a required field is absent. -/
def mkRequiredIssue (field : SchemaType) (path : String) (value : JValue) : ValidationIssue :=
  { path := path
    message := displayFieldTitle field ++ " is required"
    severity := .error
    rule := some { flag := "presence", constraint := some (.str "required") }
    value := some value
    expected := some field.type
    field := some (mkFieldContext field)
    suggestions := ["Provide a value for " ++ optNameStr field.name] }

/-- Type error of `validateNumber` (`typeof value !== 'number' || isNaN(value)`). -/
def mkNumberTypeIssue (value : JValue) (path : String) (ctx : FieldContext) : ValidationIssue :=
  { path := path
    message := "Expected number, got " ++ typeofStr value
    severity := .error
    rule := none
    value := some value
    expected := some "number"
    field := some ctx
    suggestions := ["Convert the value to a number"] }

/-- Issue of `validateNumber` for an `integer` rule on a non-integer. -/
def mkIntegerIssue (r : ValidationRule) (n : JNum) (path : String) (ctx : FieldContext) : ValidationIssue :=
  { path := path
    message := "Expected integer, got decimal"
    severity := .error
    rule := some r
    value := some (.num n)
    expected := some "integer"
    field := some ctx
    suggestions := ["Round to " ++ jnumToString (jnumRound n)] }

/-- Issue of `validateNumber` for a `positive` rule on `value <= 0`. -/
def mkPositiveIssue (r : ValidationRule) (n : JNum) (path : String) (ctx : FieldContext) : ValidationIssue :=
  { path := path
    message := "Expected positive number"
    severity := .error
    rule := some r
    value := some (.num n)
    expected := some "positive number"
    field := some ctx
    suggestions := ["Use a positive value"] }

/-- `validateNumber` from `src/validation.ts`. -/
def validateNumber (value : JValue) (path : String)
    (rules : List ValidationRule) (ctx : FieldContext) : List ValidationIssue :=
  match value with
  | .num n =>
    if n.isNaNb then [mkNumberTypeIssue value path ctx]
    else
      (match rules.find? (fun r => r.flag == "integer") with
       | some r => if n.isIntegerb then [] else [mkIntegerIssue r n path ctx]
       | none => []) ++
      (match rules.find? (fun r => r.flag == "positive") with
       | some r => if jnumLe n (.real 0) then [mkPositiveIssue r n path ctx] else []
       | none => [])
  | _ => [mkNumberTypeIssue value path ctx]

/-- Element shown by `Array.prototype.join` inside
`one of: ${validValues.join(', ')}` (join renders `null`/`undefined`
elements as empty text, unlike template interpolation). -/
def jsJoinElem : JValue → String
  | .null => ""
  | .undefined => ""
  | v => jsDisplayString v

/-- `validateString` from `src/validation.ts`.  The list-option branch
reads `item.value` for every `typeof item === 'object'` entry of
`field.options.list`, which throws on a `null` entry. -/
def validateString (value : JValue) (field : SchemaType) (path : String)
    (ctx : FieldContext) : Except String (List ValidationIssue) :=
  match value with
  | .str s =>
    (match jlookup (field.options.getD []) "list" with
     | .arr items => do
        let validValues ← items.mapM (fun item =>
          if typeofStr item == "object" then jsMemberE item "value" else Except.ok item)
        if validValues.any (fun v => match v with | .str t => t == s | _ => false) then
          Except.ok []
        else
          Except.ok [{ path := path
                       message := "\"" ++ s ++ "\" is not a valid option"
                       severity := .error
                       rule := none
                       value := some value
                       expected := some ("one of: " ++ String.intercalate ", " (validValues.map jsJoinElem))
                       field := some ctx
                       suggestions := validValues.map (fun v => "Use \"" ++ jsDisplayString v ++ "\"") }]
     | _ => Except.ok [])
  | _ =>
    Except.ok [{ path := path
                 message := "Expected string, got " ++ typeofStr value
                 severity := .error
                 rule := none
                 value := some value
                 expected := some "string"
                 field := some ctx
                 suggestions := ["Convert the value to a string"] }]

/-- `validateBoolean` from `src/validation.ts`. -/
def validateBoolean (value : JValue) (path : String) (ctx : FieldContext) : List ValidationIssue :=
  match value with
  | .bool _ => []
  | _ =>
    [{ path := path
       message := "Expected boolean, got " ++ typeofStr value
       severity := .error
       rule := none
       value := some value
       expected := some "boolean"
       field := some ctx
       suggestions := ["Use true or false"] }]

/-- `validateDate` from `src/validation.ts` (`new Date` parsing is taken
from the environment). -/
def validateDate (env : JsEnv) (value : JValue) (field : SchemaType) (path : String)
    (ctx : FieldContext) : List ValidationIssue :=
  let expectedTxt := if field.type == "datetime" then "ISO 8601 datetime string" else "YYYY-MM-DD date string"
  let suggestionTxt := if field.type == "datetime" then "Use format: 2024-01-15T10:30:00Z" else "Use format: 2024-01-15"
  match value with
  | .str s =>
    if env.dateValid s then []
    else
      [{ path := path
         message := "Invalid date format: \"" ++ s ++ "\""
         severity := .error
         rule := none
         value := some value
         expected := some expectedTxt
         field := some ctx
         suggestions := [suggestionTxt] }]
  | _ =>
    [{ path := path
       message := "Expected date string, got " ++ typeofStr value
       severity := .error
       rule := none
       value := some value
       expected := some expectedTxt
       field := some ctx
       suggestions := [suggestionTxt] }]

/-- `validateReference` from `src/validation.ts`. -/
def validateReference (value : JValue) (field : SchemaType) (path : String)
    (ctx : FieldContext) : List ValidationIssue :=
  if isObjectTypeof value then
    let refValue := jsMember value "_ref"
    let refType := jsMember value "_type"
    let refIssues :=
      if !(match refValue with | .str t => t ≠ "" | _ => false) then
        [{ path := path ++ "._ref"
           message := "Reference is missing _ref property"
           severity := .error
           rule := none
           value := some refValue
           expected := some "string (document ID)"
           field := some ctx
           suggestions := ["Add \"_ref\": \"document-id\" to the reference"] }]
      else []
    let targets := field.toTargets.getD []
    let targetIssues :=
      if truthy refType && !(match refType with | .str t => t == "reference" | _ => false) then
        let allowedTypes := (targets.map (fun t => t.type)).filter (fun t => t ≠ "")
        if allowedTypes ≠ [] && !(match refType with | .str t => allowedTypes.contains t | _ => false) then
          [{ path := path ++ "._type"
             message := "Reference to \"" ++ jsDisplayString refType ++ "\" is not allowed"
             severity := .error
             rule := none
             value := some refType
             expected := some ("reference to: " ++ String.intercalate ", " allowedTypes)
             field := some ctx
             suggestions := ["Reference a document of type: " ++ String.intercalate ", " allowedTypes] }]
        else []
      else []
    refIssues ++ targetIssues
  else
    [{ path := path
       message := "Expected reference object, got " ++ typeofStr value
       severity := .error
       rule := none
       value := some value
       expected := some "reference object with _ref"
       field := some ctx
       suggestions := ["Use format: \x7b \"_type\": \"reference\", \"_ref\": \"document-id\" \x7d"] }]

/-- The DFA of the slug format regex `^[a-z0-9]+(?:-[a-z0-9]+)*$`.  The
flag records whether the next character must be alphanumeric (at the
start of the string and right after a hyphen). -/
def slugCharOk (c : Char) : Bool :=
  ('a' ≤ c && c ≤ 'z') || ('0' ≤ c && c ≤ '9')

def slugDFA : List Char → Bool → Bool
  | [], expectAl => !expectAl
  | c :: rest, expectAl =>
    if slugCharOk c then slugDFA rest false
    else if c = '-' then (if expectAl then false else slugDFA rest true)
    else false

/-- `/^[a-z0-9]+(?:-[a-z0-9]+)*$/.test s`. -/
def slugFormatOk (s : String) : Bool := slugDFA s.data true

/-- One step of `replace(/[^a-z0-9]+/g, '-')`: collapse each maximal run
of characters outside `[a-z0-9]` to a single hyphen.  The flag records
whether we are inside such a run whose hyphen was already emitted. -/
def collapseNonAlnum : List Char → Bool → List Char
  | [], _ => []
  | c :: rest, inRun =>
    if slugCharOk c then c :: collapseNonAlnum rest false
    else if inRun then collapseNonAlnum rest true
    else '-' :: collapseNonAlnum rest true

/-- `replace(/^-|-$/g, '')`: remove one leading and one trailing hyphen. -/
def stripEdgeHyphens (l : List Char) : List Char :=
  let l1 := match l with
    | '-' :: rest => rest
    | other => other
  if l1.getLast? = some '-' then l1.dropLast else l1

/-- `toLowerCase` on one character; the validator's slugs are ASCII, for
which this matches JavaScript exactly. -/
def jsCharToLower (c : Char) : Char := c.toLower

/-- The suggested slug normalization of `validateSlug`:
`current.toLowerCase().replace(/[^a-z0-9]+/g, '-').replace(/^-|-$/g, '')`. -/
def normalizeSlug (s : String) : String :=
  String.mk (stripEdgeHyphens (collapseNonAlnum (s.data.map jsCharToLower) false))

/-- The warning pushed by `validateSlug` for a malformed `current`. -/
def mkSlugWarning (path : String) (s : String) (ctx : FieldContext) : ValidationIssue :=
  { path := path ++ ".current"
    message := "Slug contains invalid characters"
    severity := .warning
    rule := none
    value := some (.str s)
    expected := some "lowercase letters, numbers, and hyphens only"
    field := some ctx
    suggestions := ["Use: \"" ++ normalizeSlug s ++ "\""] }

/-- The error pushed by `validateSlug` for a missing/non-string `current`. -/
def mkSlugMissingIssue (path : String) (cur : JValue) (ctx : FieldContext) : ValidationIssue :=
  { path := path ++ ".current"
    message := "Slug is missing current value"
    severity := .error
    rule := none
    value := some cur
    expected := some "string"
    field := some ctx
    suggestions := ["Add \"current\": \"url-friendly-slug\""] }

/-- `validateSlug` from `src/validation.ts`. -/
def validateSlug (value : JValue) (path : String) (ctx : FieldContext) : List ValidationIssue :=
  if isObjectTypeof value then
    let slugCurrent := jsMember value "current"
    match slugCurrent with
    | .str t =>
      if t == "" then [mkSlugMissingIssue path slugCurrent ctx]
      else if slugFormatOk t then []
      else [mkSlugWarning path t ctx]
    | _ => [mkSlugMissingIssue path slugCurrent ctx]
  else
    [{ path := path
       message := "Expected slug object, got " ++ typeofStr value
       severity := .error
       rule := none
       value := some value
       expected := some "slug object with current property"
       field := some ctx
       suggestions := ["Use format: \x7b \"current\": \"my-slug\" \x7d"] }]

/-- `validateUrl` from `src/validation.ts`. -/
def validateUrl (env : JsEnv) (value : JValue) (path : String) (ctx : FieldContext) : List ValidationIssue :=
  match value with
  | .str s =>
    if env.urlValid s then []
    else
      [{ path := path
         message := "Invalid URL: \"" ++ s ++ "\""
         severity := .error
         rule := none
         value := some value
         expected := some "valid URL"
         field := some ctx
         suggestions := ["Use format: https://example.com/path"] }]
  | _ =>
    [{ path := path
       message := "Expected URL string, got " ++ typeofStr value
       severity := .error
       rule := none
       value := some value
       expected := some "URL string"
       field := some ctx
       suggestions := [] }]

/-- `validateBlock` from `src/validation.ts`.  For every entry of a
`children` array the source reads `child['_type']` and `child['_key']`
after a bare cast, so a `null` or `undefined` entry throws a
`TypeError`; every other entry shape is tolerated (property access on a
primitive yields `undefined`). -/
def validateBlock (value : JValue) (path : String) (ctx : FieldContext) :
    Except String (List ValidationIssue) :=
  if isObjectTypeof value then
    let blockType := jsMember value "_type"
    let blockKey := jsMember value "_key"
    let blockChildren := jsMember value "children"
    let headIssues :=
      (if !truthy blockType then
        [{ path := path ++ "._type"
           message := "Block is missing _type"
           severity := Severity.error
           rule := none
           value := none
           expected := some "block type"
           field := some ctx
           suggestions := [] }]
       else []) ++
      (if !truthy blockKey then
        [{ path := path ++ "._key"
           message := "Block is missing _key"
           severity := Severity.warning
           rule := none
           value := none
           expected := some "unique key"
           field := some ctx
           suggestions := [] }]
       else [])
    match blockChildren with
    | .arr kids => do
      let childIssues ← kids.enum.mapM (fun iv => do
        let childPath := path ++ ".children[" ++ toString iv.1 ++ "]"
        let childType ← jsMemberE iv.2 "_type"
        let childKey ← jsMemberE iv.2 "_key"
        Except.ok
          ((if !truthy childType then
              [{ path := childPath ++ "._type"
                 message := "Block child is missing _type"
                 severity := Severity.error
                 rule := none
                 value := none
                 expected := some "span or inline type"
                 field := some ctx
                 suggestions := [] }]
            else []) ++
           (if !truthy childKey then
              [{ path := childPath ++ "._key"
                 message := "Block child is missing _key"
                 severity := Severity.warning
                 rule := none
                 value := none
                 expected := some "unique key"
                 field := some ctx
                 suggestions := [] }]
            else [])))
      Except.ok (headIssues ++ childIssues.flatten)
    | _ => Except.ok headIssues
  else
    Except.ok
      [{ path := path
         message := "Expected block object, got " ++ typeofStr value
         severity := .error
         rule := none
         value := some value
         expected := some "portable text block"
         field := some ctx
         suggestions := [] }]

/-- Split a character list at the first occurrence of a character. -/
def breakAtChar (c : Char) : List Char → Option (List Char × List Char)
  | [] => none
  | x :: xs =>
    if x = c then some ([], xs)
    else (breakAtChar c xs).map (fun p => (x :: p.1, p.2))

/-- The fixed email regex `/^[^\s@]+@[^\s@]+\.[^\s@]+$/`: exactly one
`@`, a nonempty whitespace-free local part, and a whitespace-free domain
containing a dot that is neither its first nor its last character. -/
def emailOk (s : String) : Bool :=
  match breakAtChar '@' s.data with
  | some (localPart, domain) =>
    !domain.contains '@' &&
    localPart ≠ [] &&
    localPart.all (fun c => !c.isWhitespace) &&
    domain.all (fun c => !c.isWhitespace) &&
    ((domain.drop 1).dropLast.contains '.')
  | none => false

/-- One iteration of the rule loop in `applyValidationRules`
(`src/validation.ts`).  The `length` and `regex` cases read properties
of the raw constraint, which throws when the constraint is absent or
`null` while the value is a string; an uncompilable `regex` pattern is
skipped. -/
def applyOneRule (env : JsEnv) (value : JValue) (rule : ValidationRule)
    (path : String) (ctx : FieldContext) : Except String (List ValidationIssue) :=
  match rule.flag with
  | "min" =>
    let c := rule.constraint.getD .undefined
    Except.ok
      (match value with
       | .str s =>
         if jnumLt (.real (s.length : ℚ)) (toNumberJ c) then
           [{ path := path
              message := "Must be at least " ++ jsDisplayString c ++ " characters"
              severity := .error
              rule := some rule
              value := some value
              expected := some ("string with length >= " ++ jsDisplayString c)
              field := some ctx
              suggestions := ["Add " ++ jnumToString (jnumSub (toNumberJ c) (.real (s.length : ℚ))) ++
                " more character" ++
                (if jnumSub (toNumberJ c) (.real (s.length : ℚ)) == JNum.real 1 then "" else "s")] }]
         else []
       | .num n =>
         if jnumLt n (toNumberJ c) then
           [{ path := path
              message := "Must be at least " ++ jsDisplayString c
              severity := .error
              rule := some rule
              value := some value
              expected := some ("number >= " ++ jsDisplayString c)
              field := some ctx
              suggestions := [] }]
         else []
       | .arr xs =>
         if jnumLt (.real (xs.length : ℚ)) (toNumberJ c) then
           [{ path := path
              message := "Must have at least " ++ jsDisplayString c ++ " item" ++
                (if jsIsOne c then "" else "s")
              severity := .error
              rule := some rule
              value := some (.num (.real (xs.length : ℚ)))
              expected := some ("array with length >= " ++ jsDisplayString c)
              field := some ctx
              suggestions := [] }]
         else []
       | _ => [])
  | "max" =>
    let c := rule.constraint.getD .undefined
    Except.ok
      (match value with
       | .str s =>
         if jnumGt (.real (s.length : ℚ)) (toNumberJ c) then
           [{ path := path
              message := "Must be at most " ++ jsDisplayString c ++ " characters (currently " ++
                toString s.length ++ ")"
              severity := .error
              rule := some rule
              value := some value
              expected := some ("string with length <= " ++ jsDisplayString c)
              field := some ctx
              suggestions := ["Remove " ++ jnumToString (jnumSub (.real (s.length : ℚ)) (toNumberJ c)) ++
                " character" ++
                (if jnumSub (.real (s.length : ℚ)) (toNumberJ c) == JNum.real 1 then "" else "s")] }]
         else []
       | .num n =>
         if jnumGt n (toNumberJ c) then
           [{ path := path
              message := "Must be at most " ++ jsDisplayString c
              severity := .error
              rule := some rule
              value := some value
              expected := some ("number <= " ++ jsDisplayString c)
              field := some ctx
              suggestions := [] }]
         else []
       | .arr xs =>
         if jnumGt (.real (xs.length : ℚ)) (toNumberJ c) then
           [{ path := path
              message := "Must have at most " ++ jsDisplayString c ++ " item" ++
                (if jsIsOne c then "" else "s") ++ " (currently " ++ toString xs.length ++ ")"
              severity := .error
              rule := some rule
              value := some (.num (.real (xs.length : ℚ)))
              expected := some ("array with length <= " ++ jsDisplayString c)
              field := some ctx
              suggestions := [] }]
         else []
       | _ => [])
  | "length" =>
    match value with
    | .str s => do
      let c := rule.constraint.getD .undefined
      let minV ← jsMemberE c "min"
      let maxV ← jsMemberE c "max"
      let minIssues :=
        match minV with
        | .undefined => []
        | mv =>
          if jnumLt (.real (s.length : ℚ)) (toNumberJ mv) then
            [{ path := path
               message := "Must be at least " ++ jsDisplayString mv ++ " characters"
               severity := Severity.error
               rule := some rule
               value := some value
               expected := none
               field := some ctx
               suggestions := [] }]
          else []
      let maxIssues :=
        match maxV with
        | .undefined => []
        | mv =>
          if jnumGt (.real (s.length : ℚ)) (toNumberJ mv) then
            [{ path := path
               message := "Must be at most " ++ jsDisplayString mv ++ " characters"
               severity := Severity.error
               rule := some rule
               value := some value
               expected := none
               field := some ctx
               suggestions := [] }]
          else []
      Except.ok (minIssues ++ maxIssues)
    | _ => Except.ok []
  | "regex" =>
    match value with
    | .str s => do
      let c := rule.constraint.getD .undefined
      let p ← jsMemberE c "pattern"
      if truthy p then
        match env.regexTest (jsDisplayString p) s with
        | none => Except.ok []
        | some true => Except.ok []
        | some false =>
          let nameV := jsMember c "name"
          Except.ok
            [{ path := path
               message :=
                 if truthy nameV then "Does not match " ++ jsDisplayString nameV ++ " format"
                 else "Does not match required pattern"
               severity := .error
               rule := some rule
               value := some value
               expected := some (jsDisplayString (if truthy nameV then nameV else p))
               field := some ctx
               suggestions := [] }]
      else Except.ok []
    | _ => Except.ok []
  | "email" =>
    Except.ok
      (match value with
       | .str s =>
         if emailOk s then []
         else
           [{ path := path
              message := "Invalid email address"
              severity := .error
              rule := some rule
              value := some value
              expected := some "valid email address"
              field := some ctx
              suggestions := ["Use format: user@example.com"] }]
       | _ => [])
  | "uri" =>
    Except.ok
      (match value with
       | .str s =>
         if env.urlValid s then []
         else
           [{ path := path
              message := "Invalid URL"
              severity := .error
              rule := some rule
              value := some value
              expected := some "valid URL"
              field := some ctx
              suggestions := [] }]
       | _ => [])
  | "unique" => Except.ok []
  | "custom" =>
    Except.ok
      [{ path := path
         message := "Has custom validation that cannot be evaluated"
         severity := .info
         rule := some rule
         value := none
         expected := none
         field := some ctx
         suggestions := [] }]
  | _ => Except.ok []

/-- `applyValidationRules` from `src/validation.ts`: iterate every rule
attached to the field, in order, concatenating the issues. -/
def applyValidationRules (env : JsEnv) (value : JValue) (rules : List ValidationRule)
    (path : String) (ctx : FieldContext) : Except String (List ValidationIssue) :=
  rules.foldlM (fun acc rule => do
    let is ← applyOneRule env value rule path ctx
    Except.ok (acc ++ is)) []

/-- The allowed-type list in the array member mismatch error:
`memberTypes.map(m => m['type'] || m.name).filter(Boolean)`. -/
def memberAllowedTypes (memberTypes : List SchemaType) : List String :=
  (memberTypes.map (fun m => if m.type ≠ "" then m.type else m.name.getD "")).filter (fun s => s ≠ "")

/-- The member-type match in `validateArray`:
`m['type'] === itemType || m.name === itemType` (strict equality between
the raw `_type` value and the member's `type`/`name`; two `undefined`
sides compare equal). -/
def memberMatches (itemType : JValue) (m : SchemaType) : Bool :=
  (match itemType with | .str t => t == m.type | _ => false) ||
  (match m.name, itemType with
   | some nm, .str t => t == nm
   | none, .undefined => true
   | _, _ => false)

/-- `validateArray` from `src/validation.ts`, with the recursive call
into `validateField` abstracted as `recurse` (the caller passes the
fuel-decremented field validator). -/
def validateArrayR (recurse : JValue → SchemaType → String → Except String (List ValidationIssue))
    (value : JValue) (field : SchemaType) (path : String) (typeMap : List SchemaType)
    (ctx : FieldContext) : Except String (List ValidationIssue) :=
  match value with
  | .arr items => do
    let memberTypes := field.ofMembers.getD []
    let perItem ← items.enum.mapM (fun iv => do
      let item := iv.2
      let itemPath := path ++ "[" ++ toString iv.1 ++ "]"
      -- Check _key for objects in arrays (a missing key is a warning).
      let keyIssues :=
        if isObjectTypeof item && !hasKeyJS item "_key" then
          [{ path := itemPath
             message := "Array item is missing _key property"
             severity := Severity.warning
             rule := none
             value := some item
             expected := some "object with _key"
             field := some ctx
             suggestions := ["Add a unique \"_key\" property to this item"] }]
        else []
      if isObjectTypeof item && hasKeyJS item "_type" then
        -- Find matching member type by its `type` or `name`.
        let itemType := jsMember item "_type"
        match memberTypes.find? (memberMatches itemType) with
        | none =>
          let allowedTypes := memberAllowedTypes memberTypes
          Except.ok (keyIssues ++
            [{ path := itemPath ++ "._type"
               message := "Type \"" ++ jsDisplayString itemType ++ "\" is not allowed in this array"
               severity := Severity.error
               rule := none
               value := some itemType
               expected := some ("one of: " ++ String.intercalate ", " allowedTypes)
               field := some ctx
               suggestions := allowedTypes.map (fun t => "Change _type to \"" ++ t ++ "\"") }])
        | some memberType => do
          -- Validate against the member type (resolved through the type map).
          let memberTypeDef :=
            match itemType with
            | .str t => (typeLookup typeMap t).getD memberType
            | _ => memberType
          let per ← (memberTypeDef.fields.getD []).mapM (fun f =>
            recurse (jsMember item (fieldKey f)) f (itemPath ++ "." ++ fieldKey f))
          Except.ok (keyIssues ++ per.flatten)
      else
        -- Primitive array items: check against the first declared member kind.
        match memberTypes with
        | [] => Except.ok keyIssues
        | m0 :: _ =>
          if m0.type ≠ "" && typeofStr item ≠ m0.type then
            Except.ok (keyIssues ++
              [{ path := itemPath
                 message := "Expected " ++ m0.type ++ ", got " ++ typeofStr item
                 severity := Severity.error
                 rule := none
                 value := some item
                 expected := some m0.type
                 field := some ctx
                 suggestions := [] }])
          else Except.ok keyIssues)
    Except.ok perItem.flatten
  | _ =>
    Except.ok
      [{ path := path
         message := "Expected array, got " ++ typeofStr value
         severity := .error
         rule := none
         value := some value
         expected := some "array"
         field := some ctx
         suggestions := ["Wrap the value in an array: [" ++ jsonStringify value ++ "]"] }]

/-- `validateObject` from `src/validation.ts`: `fieldDef` is the node
whose declared `fields` are validated (the field itself, or a custom
object type resolved through the type map). -/
def validateObjectR (recurse : JValue → SchemaType → String → Except String (List ValidationIssue))
    (value : JValue) (fieldDef : SchemaType) (path : String) (ctx : FieldContext) :
    Except String (List ValidationIssue) :=
  match value with
  | .obj entries => do
    let per ← (fieldDef.fields.getD []).mapM (fun f =>
      recurse (jlookup entries (fieldKey f)) f (path ++ "." ++ fieldKey f))
    Except.ok per.flatten
  | _ =>
    Except.ok
      [{ path := path
         message := "Expected object, got " ++
           (match value with | .arr _ => "array" | _ => typeofStr value)
         severity := .error
         rule := none
         value := some value
         expected := some "object"
         field := some ctx
         suggestions := [] }]

/-- `validateAsset` from `src/validation.ts` (image/file fields). -/
def validateAssetR (recurse : JValue → SchemaType → String → Except String (List ValidationIssue))
    (value : JValue) (field : SchemaType) (path : String) (ctx : FieldContext) :
    Except String (List ValidationIssue) :=
  if isObjectTypeof value then do
    let assetValue := jsMember value "asset"
    let assetIssues :=
      if !truthy assetValue then
        [{ path := path ++ ".asset"
           message := (if field.type == "image" then "Image" else "File") ++
             " is missing asset reference"
           severity := Severity.error
           rule := none
           value := none
           expected := some "asset reference object"
           field := some ctx
           suggestions := ["Add \"asset\": \x7b \"_ref\": \"" ++ field.type ++ "-...\" \x7d"] }]
      else if isObjectTypeof assetValue then
        if !(match jsMember assetValue "_ref" with | .str t => t ≠ "" | _ => false) then
          [{ path := path ++ ".asset._ref"
             message := "Asset is missing _ref property"
             severity := Severity.error
             rule := none
             value := none
             expected := some "asset ID string"
             field := some ctx
             suggestions := [] }]
        else []
      else []
    -- Validate nested fields (like alt text on images).
    let per ← (field.fields.getD []).mapM (fun f =>
      recurse (jsMember value (fieldKey f)) f (path ++ "." ++ fieldKey f))
    Except.ok (assetIssues ++ per.flatten)
  else
    Except.ok
      [{ path := path
         message := "Expected " ++ field.type ++ " object, got " ++ typeofStr value
         severity := .error
         rule := none
         value := some value
         expected := some (field.type ++ " object with asset reference")
         field := some ctx
         suggestions := ["Use format: \x7b \"asset\": \x7b \"_ref\": \"image-...\" \x7d \x7d"] }]

/-- The kind dispatch of `validateField` (the `switch (field.type)` of
`src/validation.ts`), with the recursive call abstracted as `recurse`. -/
def validateFieldKind (env : JsEnv)
    (recurse : JValue → SchemaType → String → Except String (List ValidationIssue))
    (value : JValue) (field : SchemaType) (path : String) (typeMap : List SchemaType)
    (rules : List ValidationRule) (ctx : FieldContext) : Except String (List ValidationIssue) :=
  match field.type with
  | "string" | "text" => validateString value field path ctx
  | "number" => Except.ok (validateNumber value path rules ctx)
  | "boolean" => Except.ok (validateBoolean value path ctx)
  | "date" | "datetime" => Except.ok (validateDate env value field path ctx)
  | "array" => validateArrayR recurse value field path typeMap ctx
  | "object" => validateObjectR recurse value field path ctx
  | "reference" => Except.ok (validateReference value field path ctx)
  | "image" | "file" => validateAssetR recurse value field path ctx
  | "slug" => Except.ok (validateSlug value path ctx)
  | "url" => Except.ok (validateUrl env value path ctx)
  | "block" => validateBlock value path ctx
  | _ =>
    -- For custom types, look up in the type map; object-kind types with
    -- a `fields` list are validated like objects.
    match typeLookup typeMap field.type with
    | some customType =>
      if customType.type == "object" && customType.fields.isSome then
        validateObjectR recurse value customType path ctx
      else Except.ok []
    | none => Except.ok []

/-- `validateField` from `src/validation.ts`.  The source's unbounded
recursion is indexed by a fuel; every recursive call descends into a
strict subvalue of the document, so any fuel exceeding the value's
nesting depth yields the source behaviour (fuel `0` aborts with the
reserved `"FUEL"` failure, which no sufficient fuel reaches). -/
def validateFieldF (env : JsEnv) :
    Nat → JValue → SchemaType → String → List SchemaType → Except String (List ValidationIssue)
  | 0, _, _, _, _ => Except.error "FUEL"
  | fuel + 1, value, field, path, typeMap => do
    let ctx := mkFieldContext field
    let rules := getValidationRules field
    -- Check required fields; do not validate further if a required field is missing.
    if fieldIsRequired field && isAbsent value then
      Except.ok [mkRequiredIssue field path value]
    -- Skip validation if value is not present and not required.
    else if isAbsent value then
      Except.ok []
    else do
      let kindIssues ←
        validateFieldKind env (fun v f p => validateFieldF env fuel v f p typeMap)
          value field path typeMap rules ctx
      let ruleIssues ← applyValidationRules env value rules path ctx
      Except.ok (kindIssues ++ ruleIssues)

/-- The strict comparison `docType === schemaType.name` for a present
`_type` value. -/
def docTypeMatches (docType : JValue) (schemaType : SchemaType) : Bool :=
  match schemaType.name, docType with
  | some nm, .str t => t == nm
  | _, _ => false

/-- The issue pushed by `validateDocument` when `_type` is falsy. -/
def mkMissingTypeIssue (schemaType : SchemaType) : ValidationIssue :=
  { path := "_type"
    message := "Document is missing required _type field"
    severity := .error
    rule := none
    value := none
    expected := some (optNameStr schemaType.name)
    field := none
    suggestions := ["Add \"_type\": \"" ++ optNameStr schemaType.name ++ "\" to the document"] }

/-- The issue pushed by `validateDocument` when `_type` is truthy but is
not the root type's name. -/
def mkTypeMismatchIssue (schemaType : SchemaType) (docType : JValue) : ValidationIssue :=
  { path := "_type"
    message := "Document type \"" ++ jsDisplayString docType ++ "\" does not match expected type \"" ++
      optNameStr schemaType.name ++ "\""
    severity := .error
    rule := none
    value := some docType
    expected := some (optNameStr schemaType.name)
    field := none
    suggestions := ["Change _type to \"" ++ optNameStr schemaType.name ++
      "\" or use the correct schema type for validation"] }

/-- The `_type` check at the top of `validateDocument`. -/
def docTypeIssues (doc : List (String × JValue)) (schemaType : SchemaType) : List ValidationIssue :=
  let docType := jlookup doc "_type"
  if !truthy docType then [mkMissingTypeIssue schemaType]
  else if !docTypeMatches docType schemaType then [mkTypeMismatchIssue schemaType docType]
  else []

/-- The field loop of `validateDocument`: iterate the root type's fields
in declaration order, skipping the rest of the loop once an error has
been recorded when `stopOnFirstError` is set (the accumulator starts
with the `_type` issues, which the stop check also sees). -/
def validateRootFields (env : JsEnv) (fuel : Nat) (doc : List (String × JValue))
    (typeMap : List SchemaType) (stop : Bool) :
    List SchemaType → List ValidationIssue → Except String (List ValidationIssue)
  | [], issues => Except.ok issues
  | f :: rest, issues =>
    if stop && issues.any (fun i => i.severity == Severity.error) then Except.ok issues
    else do
      let fieldIssues ← validateFieldF env fuel (jlookup doc (fieldKey f)) f (fieldKey f) typeMap
      validateRootFields env fuel doc typeMap stop rest (issues ++ fieldIssues)

/-- The tail of `validateDocument`: partition the accumulated issues by
severity, build the filtered issue list and the summary line. -/
def buildResult (issues : List ValidationIssue) (includeWarnings includeInfo : Bool)
    (documentType : Option String) : ValidationResult :=
  let errors := issues.filter (fun i => i.severity == Severity.error)
  let warnings := if includeWarnings then issues.filter (fun i => i.severity == Severity.warning) else []
  let infoIssues := if includeInfo then issues.filter (fun i => i.severity == Severity.info) else []
  let filteredIssues :=
    errors ++ (if includeWarnings then warnings else []) ++ (if includeInfo then infoIssues else [])
  let parts :=
    (if errors.length > 0 then
      [toString errors.length ++ " error" ++ (if errors.length == 1 then "" else "s")] else []) ++
    (if warnings.length > 0 then
      [toString warnings.length ++ " warning" ++ (if warnings.length == 1 then "" else "s")] else []) ++
    (if infoIssues.length > 0 then [toString infoIssues.length ++ " info"] else [])
  let summary :=
    if errors.length == 0 then
      "Document is valid" ++
        (if warnings.length > 0 then
          " (" ++ toString warnings.length ++ " warning" ++
            (if warnings.length == 1 then "" else "s") ++ ")"
         else "")
    else "Validation failed: " ++ String.intercalate ", " parts
  { valid := errors.length == 0
    issues := filteredIssues
    errors := errors
    warnings := warnings
    info := infoIssues
    documentType := documentType
    summary := summary }

/-- `validateDocument` from `src/validation.ts`.  The options record is
destructured once at entry (defaults `includeWarnings = true`,
`includeInfo = false`, `stopOnFirstError = false`); nothing below the
top level reads any option, and `resolveReference` is never invoked. -/
def validateDocument (env : JsEnv) (fuel : Nat) (doc : List (String × JValue))
    (schemaType : SchemaType) (allTypes : List SchemaType) (options : ValidateOptions) :
    Except String ValidationResult :=
  let includeWarnings := options.includeWarnings.getD true
  let includeInfo := options.includeInfo.getD false
  let stopOnFirstError := options.stopOnFirstError.getD false
  Except.map
    (fun issues => buildResult issues includeWarnings includeInfo schemaType.name)
    (validateRootFields env fuel doc allTypes stopOnFirstError (schemaType.fields.getD [])
      (docTypeIssues doc schemaType))

/-- One error entry of the agent-format report. -/
structure AgentError where
  path : String
  message : String
  suggestion : Option String
  expected : Option String

/-- The record returned by `formatValidationForAgent`. -/
structure AgentFormat where
  valid : Bool
  summary : String
  errorCount : Nat
  errors : List AgentError

/-- `formatValidationForAgent` from `src/validation.ts`: the compact
machine-oriented projection of a validation result. -/
def formatValidationForAgent (result : ValidationResult) : AgentFormat :=
  { valid := result.valid
    summary := result.summary
    errorCount := result.errors.length
    errors := result.errors.map (fun e =>
      { path := e.path
        message := e.message
        suggestion := e.suggestions.head?
        expected := e.expected }) }

/-- A concrete builtin environment for closed evaluations (the inputs it
is used with exercise no regex, URL or date parsing). -/
def trivEnv : JsEnv :=
  { regexTest := fun _ _ => none, urlValid := fun _ => false, dateValid := fun _ => false }

/-- The empty options record (the source's `options = {}`). -/
def defaultOpts : ValidateOptions :=
  { includeWarnings := none, includeInfo := none, stopOnFirstError := none, resolveReference := none }

/-- Finiteness of a number value, in the sense of `Number.isFinite`
(false for `NaN` and the infinities). -/
def jnumIsFinite : JNum → Bool
  | .real _ => true
  | _ => false

/-- The value is a number other than `NaN` — exactly the values the
structural check of `validateNumber` accepts. -/
def jsNumberNonNaN : JValue → Bool
  | .num n => !n.isNaNb
  | _ => false

/-- The string contains a character outside lowercase letters, digits
and hyphens. -/
def hasBadSlugChar (s : String) : Bool :=
  s.data.any (fun c => !(slugCharOk c || c == '-'))

/-- A portable-text block field (`type: 'block'`). -/
def blockFieldC1 : SchemaType := SchemaType.mk "block" (some "body") none none none none none none

/-- A document root type named `post` with the single block field. -/
def rootC1 : SchemaType :=
  SchemaType.mk "document" (some "post") none (some [blockFieldC1]) none none none none

/-- A document whose block value has a `children` array containing a
`null` entry. -/
def docC1 : List (String × JValue) :=
  [("_type", .str "post"),
   ("body", .obj [("_type", .str "block"), ("_key", .str "k"), ("children", .arr [.null])])]

/-- A number field with no validation rules. -/
def numFieldC5 : SchemaType := SchemaType.mk "number" (some "rating") none none none none none none

/-- An `integer` validation rule (no constraint). -/
def ruleIntC5 : ValidationRule := { flag := "integer", constraint := none }

/-- A `positive` validation rule (no constraint). -/
def rulePosC5 : ValidationRule := { flag := "positive", constraint := none }

def rulesC5 : List ValidationRule := [ruleIntC5, rulePosC5]

/-- A required string field (presence rule with constraint `required`). -/
def reqFieldC3 : SchemaType :=
  SchemaType.mk "string" (some "title") (some "Title") none none none
    (some [{ rules := [{ flag := "presence", constraint := some (.str "required") }],
             message := none, level := none }]) none

/-- A document root type named `t` with no fields. -/
def rootPlainT : SchemaType := SchemaType.mk "document" (some "t") none (some []) none none none none

/-- The minimal valid document for `rootPlainT`. -/
def docPlainT : List (String × JValue) := [("_type", .str "t")]

/-- The result of validating `docPlainT` against `rootPlainT`. -/
def resPlainT : ValidationResult :=
  { valid := true, issues := [], errors := [], warnings := [], info := [],
    documentType := some "t", summary := "Document is valid" }

/-- Options with warnings excluded and info included. -/
def optsC2 : ValidateOptions :=
  { includeWarnings := some false, includeInfo := some true, stopOnFirstError := none,
    resolveReference := none }

/-- Options carrying a `resolveReference` callback (which the engine
never invokes). -/
def optsC7 : ValidateOptions :=
  { includeWarnings := none, includeInfo := none, stopOnFirstError := none,
    resolveReference := some (fun s => some s) }

/-- The result of validating the empty document against `rootPlainT`:
one missing-`_type` error. -/
def resMissingT : ValidationResult :=
  { valid := false
    issues := [mkMissingTypeIssue rootPlainT]
    errors := [mkMissingTypeIssue rootPlainT]
    warnings := []
    info := []
    documentType := some "t"
    summary := "Validation failed: 1 error" }

/-- A slug field with no validation rules. -/
def slugFieldC10 : SchemaType := SchemaType.mk "slug" (some "s") none none none none none none

/-- A root type with the single slug field. -/
def rootC10 : SchemaType :=
  SchemaType.mk "document" (some "t") none (some [slugFieldC10]) none none none none

/-- A document whose slug `current` has invalid characters. -/
def docC10 : List (String × JValue) :=
  [("_type", .str "t"), ("s", .obj [("current", .str "Bad Slug")])]

/-- The result of validating `docC10` against `rootC10`: valid, with one
slug-format warning. -/
def resC10 : ValidationResult :=
  { valid := true
    issues := [mkSlugWarning "s" "Bad Slug" (mkFieldContext slugFieldC10)]
    errors := []
    warnings := [mkSlugWarning "s" "Bad Slug" (mkFieldContext slugFieldC10)]
    info := []
    documentType := some "t"
    summary := "Document is valid (1 warning)" }

/-- Projection lemma: the `errors` list built by `buildResult` is the
error-severity filter of the accumulated issues, for any option flags. -/
theorem buildResult_errors_eq (issues : List ValidationIssue) (w i : Bool) (dt : Option String) :
    (buildResult issues w i dt).errors = issues.filter (fun x => x.severity == Severity.error) := rfl

/-- Projection lemma: `valid` is the emptiness test of that filter. -/
theorem buildResult_valid_eq (issues : List ValidationIssue) (w i : Bool) (dt : Option String) :
    (buildResult issues w i dt).valid =
      ((issues.filter (fun x => x.severity == Severity.error)).length == 0) := rfl

/-- With `stopOnFirstError` unset the field loop never breaks, so the
issues accumulated before it (for example the `_type` issues) are a
prefix that does not influence the field issues that follow. -/
theorem validateRootFields_no_stop (env : JsEnv) (fuel : Nat) (doc : List (String × JValue))
    (tm : List SchemaType) :
    ∀ (fields : List SchemaType) (issues0 : List ValidationIssue),
    validateRootFields env fuel doc tm false fields issues0 =
      Except.map (fun more => issues0 ++ more) (validateRootFields env fuel doc tm false fields []) := by
  intro fields
  induction fields with
  | nil =>
    intro issues0
    simp [validateRootFields, Except.map]
  | cons f rest ih =>
    intro issues0
    simp only [validateRootFields, Bool.false_and, Bool.false_eq_true, if_false]
    cases hf : validateFieldF env fuel (jlookup doc (fieldKey f)) f (fieldKey f) tm with
    | error e =>
      simp [hf, Except.map, Bind.bind, Except.bind]
    | ok fi =>
      simp only [hf, Bind.bind, Except.bind, List.nil_append]
      rw [ih (issues0 ++ fi), ih fi]
      cases validateRootFields env fuel doc tm false rest [] with
      | error e => simp [Except.map]
      | ok l => simp [Except.map, List.append_assoc]

/-- Claim C1 (code bug): `validateBlock` reads `child['_type']` from an
arbitrary entry of the block's `children` array after a bare cast, so a
`null` entry makes the validator throw a `TypeError` instead of
reporting an issue — contradicting the documented guarantee that every
problem with the document becomes a `ValidationIssue` and the validator
never raises.  The theorem evaluates the engine at the failing input for
every sufficient fuel. -/
theorem C1_block_child_null_throws (n : Nat) :
    validateDocument trivEnv (n + 1) docC1 rootC1 [] defaultOpts = Except.error "TypeError" := rfl

/-- Claim C3: a field carrying a presence/required rule whose value is
absent (`undefined` or `null`) yields exactly the one required-field
error at the field's path, and no structural or constraint check runs
for that field. -/
theorem C3_required_missing_single_error (env : JsEnv) (fuel : Nat) (value : JValue)
    (field : SchemaType) (path : String) (tm : List SchemaType)
    (hreq : fieldIsRequired field = true) (habs : isAbsent value = true) :
    validateFieldF env (fuel + 1) value field path tm = Except.ok [mkRequiredIssue field path value] ∧
    (mkRequiredIssue field path value).severity = Severity.error ∧
    (mkRequiredIssue field path value).path = path := by
  refine ⟨?_, rfl, rfl⟩
  simp only [validateFieldF, hreq, habs, Bool.and_self, if_true]

/-- Witness for C3 at a concrete required field and an `undefined` value. -/
theorem C3_required_missing_single_error_witness :
    fieldIsRequired reqFieldC3 = true ∧ isAbsent JValue.undefined = true ∧
    validateFieldF trivEnv 1 JValue.undefined reqFieldC3 "title" [] =
      Except.ok [mkRequiredIssue reqFieldC3 "title" JValue.undefined] :=
  ⟨rfl, rfl, (C3_required_missing_single_error trivEnv 0 JValue.undefined reqFieldC3 "title" [] rfl rfl).1⟩

/-- Claim C7: the result of `validateDocument` depends only on the three
option flags it destructures (`includeWarnings`, `includeInfo`,
`stopOnFirstError`); in particular the `resolveReference` callback is
never invoked and cannot influence the result, and two calls on the same
`(document, rootType, allTypes, options)` tuple yield identical results. -/
theorem C7_deterministic_in_consumed_options (env : JsEnv) (fuel : Nat)
    (doc : List (String × JValue)) (root : SchemaType) (types : List SchemaType)
    (o o2 : ValidateOptions)
    (hw : o.includeWarnings = o2.includeWarnings)
    (hi : o.includeInfo = o2.includeInfo)
    (hs : o.stopOnFirstError = o2.stopOnFirstError) :
    validateDocument env fuel doc root types o = validateDocument env fuel doc root types o2 := by
  simp only [validateDocument, hw, hi, hs]

/-- Witness for C7: the default options against options that carry a
`resolveReference` callback. -/
theorem C7_deterministic_in_consumed_options_witness :
    defaultOpts.includeWarnings = optsC7.includeWarnings ∧
    defaultOpts.includeInfo = optsC7.includeInfo ∧
    defaultOpts.stopOnFirstError = optsC7.stopOnFirstError ∧
    validateDocument trivEnv 1 docPlainT rootPlainT [] defaultOpts =
      validateDocument trivEnv 1 docPlainT rootPlainT [] optsC7 :=
  ⟨rfl, rfl, rfl,
    C7_deterministic_in_consumed_options trivEnv 1 docPlainT rootPlainT [] defaultOpts optsC7 rfl rfl rfl⟩

/-- The defining shape of `validateDocument`: the `_type` issues seed the
field loop, and the result is built from the accumulated issues. -/
theorem validateDocument_run_eq (env : JsEnv) (fuel : Nat) (doc : List (String × JValue))
    (root : SchemaType) (types : List SchemaType) (o : ValidateOptions) :
    validateDocument env fuel doc root types o =
      Except.map
        (fun issues => buildResult issues (o.includeWarnings.getD true) (o.includeInfo.getD false) root.name)
        (validateRootFields env fuel doc types (o.stopOnFirstError.getD false) (root.fields.getD [])
          (docTypeIssues doc root)) := rfl

/-- Filtering one severity out of another severity's filter yields
nothing. -/
theorem filter_sev_disjoint (s1 s2 : Severity) (h : s1 ≠ s2) (l : List ValidationIssue) :
    (l.filter (fun i => i.severity == s2)).filter (fun i => i.severity == s1) = [] := by
  induction l with
  | nil => rfl
  | cons x xs ih =>
    by_cases hx2 : x.severity = s2
    · have hx1 : (s2 == s1) = false := beq_eq_false_iff_ne.mpr (fun hh => h hh.symm)
      simp [List.filter_cons, hx2, hx1, ih]
    · simp [List.filter_cons, hx2, ih]

/-- Claim C2: for every completed call, `valid` is true exactly when the
`errors` list is empty, and `includeWarnings`/`includeInfo` cannot
change `valid` (or `errors`) for a fixed document, root type and
catalog. -/
theorem C2_valid_iff_no_errors (env : JsEnv) (fuel : Nat) (doc : List (String × JValue))
    (root : SchemaType) (types : List SchemaType) (o o2 : ValidateOptions)
    (r r2 : ValidationResult)
    (hs : o.stopOnFirstError = o2.stopOnFirstError)
    (h1 : validateDocument env fuel doc root types o = Except.ok r)
    (h2 : validateDocument env fuel doc root types o2 = Except.ok r2) :
    (r.valid = true ↔ r.errors = []) ∧ r.valid = r2.valid ∧ r.errors = r2.errors := by
  rw [validateDocument_run_eq, hs] at h1
  rw [validateDocument_run_eq] at h2
  cases hbase : validateRootFields env fuel doc types (o2.stopOnFirstError.getD false)
      (root.fields.getD []) (docTypeIssues doc root) with
  | error e =>
    rw [hbase] at h1
    exact absurd h1 (by simp [Except.map])
  | ok issues =>
    rw [hbase] at h1 h2
    simp only [Except.map, Except.ok.injEq] at h1 h2
    subst h1
    subst h2
    refine ⟨?_, rfl, rfl⟩
    rw [buildResult_valid_eq, buildResult_errors_eq]
    simp [List.length_eq_zero]

/-- Witness for C2: the same document validated with the default options
and with warnings off / info on. -/
theorem C2_valid_iff_no_errors_witness :
    defaultOpts.stopOnFirstError = optsC2.stopOnFirstError ∧
    validateDocument trivEnv 1 docPlainT rootPlainT [] defaultOpts = Except.ok resPlainT ∧
    validateDocument trivEnv 1 docPlainT rootPlainT [] optsC2 = Except.ok resPlainT ∧
    ((resPlainT.valid = true ↔ resPlainT.errors = []) ∧
     resPlainT.valid = resPlainT.valid ∧ resPlainT.errors = resPlainT.errors) :=
  ⟨rfl, rfl, rfl,
    C2_valid_iff_no_errors trivEnv 1 docPlainT rootPlainT [] defaultOpts optsC2
      resPlainT resPlainT rfl rfl rfl⟩

/-- The `_type` check yields exactly one error-severity issue whenever
`_type` is falsy or does not match the root type's name. -/
theorem docTypeIssues_error_of_bad (doc : List (String × JValue)) (root : SchemaType)
    (h : truthy (jlookup doc "_type") = false ∨ docTypeMatches (jlookup doc "_type") root = false) :
    ∃ i0, docTypeIssues doc root = [i0] ∧ i0.severity = Severity.error := by
  cases htr : truthy (jlookup doc "_type") with
  | false => exact ⟨mkMissingTypeIssue root, by simp [docTypeIssues, htr], rfl⟩
  | true =>
    rcases h with h | h
    · rw [htr] at h
      exact absurd h (by simp)
    · exact ⟨mkTypeMismatchIssue root (jlookup doc "_type"), by simp [docTypeIssues, htr, h], rfl⟩

/-- Claim C4: with `stopOnFirstError` unset, a missing `_type` yields the
missing-type error (with its suggestion) and a mismatched `_type` yields
the mismatch error (naming both types); in both cases the result is
exactly the field-loop run seeded with that one issue, the field loop
never stops early (the seeded issues are a prefix that does not
influence the field issues), and every completed result is invalid. -/
theorem C4_type_issue_not_fatal (env : JsEnv) (fuel : Nat) (doc : List (String × JValue))
    (root : SchemaType) (types : List SchemaType) (o : ValidateOptions)
    (hstop : o.stopOnFirstError.getD false = false) :
    (truthy (jlookup doc "_type") = false →
       validateDocument env fuel doc root types o =
         Except.map
           (fun issues => buildResult issues (o.includeWarnings.getD true) (o.includeInfo.getD false) root.name)
           (validateRootFields env fuel doc types false (root.fields.getD []) [mkMissingTypeIssue root])) ∧
    (truthy (jlookup doc "_type") = true →
       docTypeMatches (jlookup doc "_type") root = false →
       validateDocument env fuel doc root types o =
         Except.map
           (fun issues => buildResult issues (o.includeWarnings.getD true) (o.includeInfo.getD false) root.name)
           (validateRootFields env fuel doc types false (root.fields.getD [])
             [mkTypeMismatchIssue root (jlookup doc "_type")])) ∧
    (∀ fields issues0,
       validateRootFields env fuel doc types false fields issues0 =
         Except.map (fun more => issues0 ++ more)
           (validateRootFields env fuel doc types false fields [])) ∧
    (mkMissingTypeIssue root).suggestions =
      ["Add \"_type\": \"" ++ optNameStr root.name ++ "\" to the document"] ∧
    (mkTypeMismatchIssue root (jlookup doc "_type")).message =
      "Document type \"" ++ jsDisplayString (jlookup doc "_type") ++
        "\" does not match expected type \"" ++ optNameStr root.name ++ "\"" ∧
    (∀ r, validateDocument env fuel doc root types o = Except.ok r →
       (truthy (jlookup doc "_type") = false ∨ docTypeMatches (jlookup doc "_type") root = false) →
       r.valid = false) := by
  refine ⟨?_, ?_, validateRootFields_no_stop env fuel doc types, rfl, rfl, ?_⟩
  · intro hmiss
    rw [validateDocument_run_eq, hstop]
    simp [docTypeIssues, hmiss]
  · intro htru hmm2
    rw [validateDocument_run_eq, hstop]
    simp [docTypeIssues, htru, hmm2]
  · intro r hok hbad
    obtain ⟨i0, hi0, hsev⟩ := docTypeIssues_error_of_bad doc root hbad
    rw [validateDocument_run_eq, hstop, hi0,
      validateRootFields_no_stop env fuel doc types (root.fields.getD []) [i0]] at hok
    cases hbase : validateRootFields env fuel doc types false (root.fields.getD []) [] with
    | error e =>
      rw [hbase] at hok
      exact absurd hok (by simp [Except.map])
    | ok more =>
      rw [hbase] at hok
      simp only [Except.map, Except.ok.injEq] at hok
      subst hok
      rw [buildResult_valid_eq]
      simp [List.filter_cons, hsev]

/-- Witness for C4: the empty document (no `_type`) against a plain root
type, with the default options. -/
theorem C4_type_issue_not_fatal_witness :
    defaultOpts.stopOnFirstError.getD false = false ∧
    truthy (jlookup ([] : List (String × JValue)) "_type") = false ∧
    validateDocument trivEnv 1 [] rootPlainT [] defaultOpts =
      Except.map
        (fun issues => buildResult issues (defaultOpts.includeWarnings.getD true)
          (defaultOpts.includeInfo.getD false) rootPlainT.name)
        (validateRootFields trivEnv 1 [] [] false (rootPlainT.fields.getD [])
          [mkMissingTypeIssue rootPlainT]) :=
  ⟨rfl, rfl,
    (C4_type_issue_not_fatal trivEnv 1 [] rootPlainT [] defaultOpts rfl).1 rfl⟩

/-- Claim C9: a `_type` key that is present but falsy (such as the empty
string) takes the missing-`_type` branch: the result is the field loop
seeded with the missing-type error (message `Document is missing
required _type field`), which is a different issue from every
type-mismatch issue. -/
theorem C9_falsy_type_is_missing (env : JsEnv) (fuel : Nat) (doc : List (String × JValue))
    (root : SchemaType) (types : List SchemaType) (o : ValidateOptions)
    (_hkey : containsKey doc "_type" = true)
    (hfalsy : truthy (jlookup doc "_type") = false) :
    validateDocument env fuel doc root types o =
      Except.map
        (fun issues => buildResult issues (o.includeWarnings.getD true) (o.includeInfo.getD false) root.name)
        (validateRootFields env fuel doc types (o.stopOnFirstError.getD false) (root.fields.getD [])
          [mkMissingTypeIssue root]) ∧
    (mkMissingTypeIssue root).message = "Document is missing required _type field" ∧
    (∀ v, mkMissingTypeIssue root ≠ mkTypeMismatchIssue root v) := by
  refine ⟨?_, rfl, ?_⟩
  · rw [validateDocument_run_eq]
    simp [docTypeIssues, hfalsy]
  · intro v h
    have hval := congrArg ValidationIssue.value h
    simp [mkMissingTypeIssue, mkTypeMismatchIssue] at hval

/-- Witness for C9: a document whose `_type` is the empty string. -/
theorem C9_falsy_type_is_missing_witness :
    containsKey [("_type", JValue.str "")] "_type" = true ∧
    truthy (jlookup [("_type", JValue.str "")] "_type") = false ∧
    validateDocument trivEnv 1 [("_type", JValue.str "")] rootPlainT [] defaultOpts =
      Except.map
        (fun issues => buildResult issues (defaultOpts.includeWarnings.getD true)
          (defaultOpts.includeInfo.getD false) rootPlainT.name)
        (validateRootFields trivEnv 1 [("_type", JValue.str "")] []
          (defaultOpts.stopOnFirstError.getD false) (rootPlainT.fields.getD [])
          [mkMissingTypeIssue rootPlainT]) :=
  ⟨rfl, rfl,
    (C9_falsy_type_is_missing trivEnv 1 [("_type", JValue.str "")] rootPlainT [] defaultOpts
      rfl rfl).1⟩

/-- Claim C10: every completed result lists its issues partitioned by
severity — all errors first, then the included warnings, then the
included info — and the errors are always all present even when both
inclusion flags are off. -/
theorem C10_issue_partition (env : JsEnv) (fuel : Nat) (doc : List (String × JValue))
    (root : SchemaType) (types : List SchemaType) (o : ValidateOptions) (r : ValidationResult)
    (hok : validateDocument env fuel doc root types o = Except.ok r) :
    r.issues = r.errors ++ r.warnings ++ r.info ∧
    (∀ i ∈ r.errors, i.severity = Severity.error) ∧
    (∀ i ∈ r.warnings, i.severity = Severity.warning) ∧
    (∀ i ∈ r.info, i.severity = Severity.info) ∧
    (o.includeWarnings.getD true = false → o.includeInfo.getD false = false →
      r.issues = r.errors) := by
  rw [validateDocument_run_eq] at hok
  cases hbase : validateRootFields env fuel doc types (o.stopOnFirstError.getD false)
      (root.fields.getD []) (docTypeIssues doc root) with
  | error e =>
    rw [hbase] at hok
    exact absurd hok (by simp [Except.map])
  | ok issues =>
    rw [hbase] at hok
    simp only [Except.map, Except.ok.injEq] at hok
    subst hok
    refine ⟨?_, ?_, ?_, ?_, ?_⟩
    · cases hw : o.includeWarnings.getD true <;> cases hi : o.includeInfo.getD false <;>
        simp [buildResult, hw, hi]
    · intro i hi
      rw [buildResult_errors_eq] at hi
      have := (List.mem_filter.mp hi).2
      simpa using this
    · intro i hi
      simp only [buildResult] at hi
      rcases hw : o.includeWarnings.getD true with _ | _ <;> rw [hw] at hi
      · simp at hi
      · exact (by simpa using hi : i ∈ issues ∧ i.severity = Severity.warning).2
    · intro i hi
      simp only [buildResult] at hi
      rcases hinf : o.includeInfo.getD false with _ | _ <;> rw [hinf] at hi
      · simp at hi
      · exact (by simpa using hi : i ∈ issues ∧ i.severity = Severity.info).2
    · intro hw hi
      simp [buildResult, hw, hi]

/-- Witness for C10: a document producing one slug-format warning. -/
theorem C10_issue_partition_witness :
    validateDocument trivEnv 2 docC10 rootC10 [] defaultOpts = Except.ok resC10 ∧
    resC10.issues = resC10.errors ++ resC10.warnings ++ resC10.info ∧
    (∀ i ∈ resC10.errors, i.severity = Severity.error) ∧
    (∀ i ∈ resC10.warnings, i.severity = Severity.warning) :=
  ⟨rfl,
    (C10_issue_partition trivEnv 2 docC10 rootC10 [] defaultOpts resC10 rfl).1,
    (C10_issue_partition trivEnv 2 docC10 rootC10 [] defaultOpts resC10 rfl).2.1,
    (C10_issue_partition trivEnv 2 docC10 rootC10 [] defaultOpts resC10 rfl).2.2.1⟩

/-- Claim C8: the agent projection of every completed result is exactly
`{ valid, summary, errorCount, errors }` with `valid` and `summary`
copied, `errorCount` the number of error-severity issues, and one entry
per error-severity issue only, each carrying the issue's path, message,
expected text and first suggestion. -/
theorem C8_agent_format (env : JsEnv) (fuel : Nat) (doc : List (String × JValue))
    (root : SchemaType) (types : List SchemaType) (o : ValidateOptions) (r : ValidationResult)
    (hok : validateDocument env fuel doc root types o = Except.ok r) :
    formatValidationForAgent r =
      { valid := r.valid
        summary := r.summary
        errorCount := r.errors.length
        errors := r.errors.map (fun e =>
          { path := e.path, message := e.message, suggestion := e.suggestions.head?,
            expected := e.expected }) } ∧
    r.errors = r.issues.filter (fun i => i.severity == Severity.error) ∧
    (∀ e ∈ r.errors, e.severity = Severity.error) := by
  refine ⟨rfl, ?_, ?_⟩
  · rw [validateDocument_run_eq] at hok
    cases hbase : validateRootFields env fuel doc types (o.stopOnFirstError.getD false)
        (root.fields.getD []) (docTypeIssues doc root) with
    | error e =>
      rw [hbase] at hok
      exact absurd hok (by simp [Except.map])
    | ok issues =>
      rw [hbase] at hok
      simp only [Except.map, Except.ok.injEq] at hok
      subst hok
      cases hw : o.includeWarnings.getD true <;> cases hi : o.includeInfo.getD false <;>
        simp [buildResult, hw, hi, List.filter_append,
          filter_sev_disjoint Severity.error Severity.warning (by simp),
          filter_sev_disjoint Severity.error Severity.info (by simp),
          List.filter_filter, Bool.and_self]
  · intro e he
    rw [validateDocument_run_eq] at hok
    cases hbase : validateRootFields env fuel doc types (o.stopOnFirstError.getD false)
        (root.fields.getD []) (docTypeIssues doc root) with
    | error e2 =>
      rw [hbase] at hok
      exact absurd hok (by simp [Except.map])
    | ok issues =>
      rw [hbase] at hok
      simp only [Except.map, Except.ok.injEq] at hok
      subst hok
      rw [buildResult_errors_eq] at he
      have := (List.mem_filter.mp he).2
      simpa using this

/-- Witness for C8: the empty document produces one missing-`_type`
error, projected for agents. -/
theorem C8_agent_format_witness :
    validateDocument trivEnv 1 [] rootPlainT [] defaultOpts = Except.ok resMissingT ∧
    formatValidationForAgent resMissingT =
      { valid := resMissingT.valid
        summary := resMissingT.summary
        errorCount := resMissingT.errors.length
        errors := resMissingT.errors.map (fun e =>
          { path := e.path, message := e.message, suggestion := e.suggestions.head?,
            expected := e.expected }) } ∧
    resMissingT.errors = resMissingT.issues.filter (fun i => i.severity == Severity.error) :=
  ⟨rfl,
    (C8_agent_format trivEnv 1 [] rootPlainT [] defaultOpts resMissingT rfl).1,
    (C8_agent_format trivEnv 1 [] rootPlainT [] defaultOpts resMissingT rfl).2.1⟩

/-- The integer-rule issue and the positive-rule issue of
`validateNumber` are never the same issue (their messages differ). -/
theorem mkIntegerIssue_ne_mkPositiveIssue (r1 : ValidationRule) (n1 : JNum) (p1 : String)
    (c1 : FieldContext) (r2 : ValidationRule) (n2 : JNum) (p2 : String) (c2 : FieldContext) :
    mkIntegerIssue r1 n1 p1 c1 ≠ mkPositiveIssue r2 n2 p2 c2 := by
  intro h
  have hmsg := congrArg ValidationIssue.message h
  simp [mkIntegerIssue, mkPositiveIssue] at hmsg

/-- Claim C5 (amended): for a number-kind field, the structural check of
`validateNumber` errors at the field's path exactly when the value is
not a number or is `NaN` — infinite values pass it; when the value is a
number other than `NaN`, the first `integer` rule errors precisely on
non-integers, the first `positive` rule errors precisely when
`value <= 0`, every issue sits at the field's path with error severity,
and without those rules no issue is produced. -/
theorem C5_number_check_characterization (value : JValue) (path : String)
    (rules : List ValidationRule) (ctx : FieldContext) :
    (jsNumberNonNaN value = false →
       validateNumber value path rules ctx = [mkNumberTypeIssue value path ctx] ∧
       (mkNumberTypeIssue value path ctx).severity = Severity.error ∧
       (mkNumberTypeIssue value path ctx).path = path) ∧
    (∀ n, value = JValue.num n → n.isNaNb = false →
      ((∀ r, rules.find? (fun rr => rr.flag == "integer") = some r →
          ((mkIntegerIssue r n path ctx ∈ validateNumber value path rules ctx) ↔
            n.isIntegerb = false)) ∧
       (∀ r, rules.find? (fun rr => rr.flag == "positive") = some r →
          ((mkPositiveIssue r n path ctx ∈ validateNumber value path rules ctx) ↔
            jnumLe n (JNum.real 0) = true)) ∧
       (rules.find? (fun rr => rr.flag == "integer") = none →
        rules.find? (fun rr => rr.flag == "positive") = none →
        validateNumber value path rules ctx = []) ∧
       (∀ i ∈ validateNumber value path rules ctx,
          i.path = path ∧ i.severity = Severity.error))) := by
  constructor
  · intro hnn
    refine ⟨?_, rfl, rfl⟩
    cases value with
    | num n =>
      cases n with
      | real q => simp [jsNumberNonNaN, JNum.isNaNb] at hnn
      | nan => rfl
      | posInf => simp [jsNumberNonNaN, JNum.isNaNb] at hnn
      | negInf => simp [jsNumberNonNaN, JNum.isNaNb] at hnn
    | undefined => rfl
    | null => rfl
    | bool b => rfl
    | str s => rfl
    | arr xs => rfl
    | obj kvs => rfl
  · rintro n rfl hnan
    have hv : validateNumber (JValue.num n) path rules ctx =
        (match rules.find? (fun r => r.flag == "integer") with
         | some r => if n.isIntegerb then [] else [mkIntegerIssue r n path ctx]
         | none => []) ++
        (match rules.find? (fun r => r.flag == "positive") with
         | some r => if jnumLe n (JNum.real 0) then [mkPositiveIssue r n path ctx] else []
         | none => []) := by
      simp [validateNumber, hnan]
    refine ⟨?_, ?_, ?_, ?_⟩
    · intro r hr
      rw [hv, hr]
      cases hint : n.isIntegerb with
      | true =>
        simp only [hint, if_true, List.nil_append]
        cases hpos : rules.find? (fun rr => rr.flag == "positive") with
        | none => simp
        | some r2 =>
          cases hle : jnumLe n (JNum.real 0) with
          | false => simp [hle]
          | true =>
            simp [hle, mkIntegerIssue_ne_mkPositiveIssue r n path ctx r2 n path ctx]
      | false =>
        simp [hint]
    · intro r hr
      rw [hv, hr]
      cases hle : jnumLe n (JNum.real 0) with
      | false =>
        simp only [hle]
        cases hfi : rules.find? (fun rr => rr.flag == "integer") with
        | none => simp
        | some r2 =>
          cases hint : n.isIntegerb with
          | true => simp [hint]
          | false =>
            simp [hint, Ne.symm (mkIntegerIssue_ne_mkPositiveIssue r2 n path ctx r n path ctx)]
      | true =>
        simp [hle, List.mem_append]
    · intro hno1 hno2
      rw [hv, hno1, hno2]
      rfl
    · intro i hi
      rw [hv] at hi
      rcases List.mem_append.mp hi with h | h
      · cases hfi : rules.find? (fun rr => rr.flag == "integer") with
        | none =>
          rw [hfi] at h
          simp at h
        | some r =>
          rw [hfi] at h
          cases hint : n.isIntegerb with
          | true =>
            rw [hint] at h
            simp at h
          | false =>
            rw [hint] at h
            simp at h
            subst h
            exact ⟨rfl, rfl⟩
      · cases hpos : rules.find? (fun rr => rr.flag == "positive") with
        | none =>
          rw [hpos] at h
          simp at h
        | some r =>
          rw [hpos] at h
          cases hle : jnumLe n (JNum.real 0) with
          | false =>
            rw [hle] at h
            simp at h
          | true =>
            rw [hle] at h
            simp at h
            subst h
            exact ⟨rfl, rfl⟩

/-- Counterexample for C5 as stated: `Infinity` is a present value that
is not finite, yet `validateNumber` emits no issue at all for it — the
structural check only rejects non-numbers and `NaN`
(`typeof value !== 'number' || isNaN(value)`). -/
theorem C5_infinite_value_counterexample :
    validateNumber (JValue.num JNum.posInf) "rating" [] (mkFieldContext numFieldC5) = [] ∧
    jnumIsFinite JNum.posInf = false :=
  ⟨rfl, rfl⟩

/-- Witness for C5 (amended) at the non-integer value `3/2` with an
`integer` rule. -/
theorem C5_number_check_characterization_witness :
    jsNumberNonNaN (JValue.num (JNum.real ((3 : ℚ) / 2))) = true ∧
    rulesC5.find? (fun rr => rr.flag == "integer") = some ruleIntC5 ∧
    ((mkIntegerIssue ruleIntC5 (JNum.real ((3 : ℚ) / 2)) "rating" (mkFieldContext numFieldC5) ∈
        validateNumber (JValue.num (JNum.real ((3 : ℚ) / 2))) "rating" rulesC5
          (mkFieldContext numFieldC5)) ↔
      (JNum.real ((3 : ℚ) / 2)).isIntegerb = false) :=
  ⟨rfl, rfl,
    ((C5_number_check_characterization (JValue.num (JNum.real ((3 : ℚ) / 2))) "rating" rulesC5
        (mkFieldContext numFieldC5)).2 (JNum.real ((3 : ℚ) / 2)) rfl rfl).1 ruleIntC5 rfl⟩

/-- A character outside lowercase alphanumerics and hyphens makes the
slug regex fail from any automaton state. -/
theorem slugDFA_false_of_bad :
    ∀ (l : List Char), l.any (fun c => !(slugCharOk c || c == '-')) = true →
      ∀ (st : Bool), slugDFA l st = false := by
  intro l
  induction l with
  | nil =>
    intro h
    simp at h
  | cons c cs ih =>
    intro h st
    simp only [List.any_cons, Bool.or_eq_true] at h
    by_cases hc : slugCharOk c = true
    · have htl : cs.any (fun c => !(slugCharOk c || c == '-')) = true := by
        rcases h with h | h
        · rw [hc] at h
          simp at h
        · exact h
      simp [slugDFA, hc, ih htl]
    · by_cases hd : c = '-'
      · have htl : cs.any (fun c => !(slugCharOk c || c == '-')) = true := by
          rcases h with h | h
          · rw [hd] at h
            simp at h
          · exact h
        cases st <;> simp [slugDFA, hc, hd, ih htl]
      · simp [slugDFA, hc, hd]

/-- Claim C6: for a slug value that is an object whose `current` is a
nonempty string containing a character outside lowercase letters, digits
and hyphens, `validateSlug` produces exactly one warning (never an
error) at `path.current` whose only suggestion is the normalized slug
(lowercased, runs outside `[a-z0-9]` collapsed to single hyphens, edge
hyphens stripped). -/
theorem C6_slug_warning_normalized (entries : List (String × JValue)) (path : String)
    (ctx : FieldContext) (s : String)
    (hcur : jlookup entries "current" = JValue.str s)
    (hne : s ≠ "")
    (hbad : hasBadSlugChar s = true) :
    validateSlug (JValue.obj entries) path ctx = [mkSlugWarning path s ctx] ∧
    (mkSlugWarning path s ctx).severity = Severity.warning ∧
    (mkSlugWarning path s ctx).path = path ++ ".current" ∧
    (mkSlugWarning path s ctx).suggestions = ["Use: \"" ++ normalizeSlug s ++ "\""] := by
  refine ⟨?_, rfl, rfl, rfl⟩
  have hfmt : slugFormatOk s = false := by
    have hb : s.data.any (fun c => !(slugCharOk c || c == '-')) = true := by
      simpa [hasBadSlugChar] using hbad
    exact slugDFA_false_of_bad s.data hb true
  have hne2 : (s == "") = false := beq_eq_false_iff_ne.mpr hne
  simp [validateSlug, isObjectTypeof, jsMember, hcur, hne2, hfmt]

/-- Witness for C6 at the slug value `Hello World!`, whose normalization
is `hello-world`. -/
theorem C6_slug_warning_normalized_witness :
    jlookup [("current", JValue.str "Hello World!")] "current" = JValue.str "Hello World!" ∧
    hasBadSlugChar "Hello World!" = true ∧
    validateSlug (JValue.obj [("current", JValue.str "Hello World!")]) "slug"
        (mkFieldContext slugFieldC10) =
      [mkSlugWarning "slug" "Hello World!" (mkFieldContext slugFieldC10)] ∧
    (mkSlugWarning "slug" "Hello World!" (mkFieldContext slugFieldC10)).suggestions =
      ["Use: \"hello-world\""] :=
  ⟨rfl, rfl,
    (C6_slug_warning_normalized [("current", JValue.str "Hello World!")] "slug"
      (mkFieldContext slugFieldC10) "Hello World!" rfl (by decide) rfl).1,
    rfl⟩
